import Mathlib

/-!
Shallow embedding of `src/ahkab/printing.py` (the printing module of the
ahkab circuit simulator) and proofs about its observable behaviour.

Modelling conventions:

* A Python value is a `PyVal`: `None`, a bool, an arbitrary-precision
  integer, or a string.  Analysis descriptors and symbolic-result mappings
  are association lists `Dict := List (PyVal × PyVal)` read in insertion
  order, with lookup returning the first binding (a real `dict` has
  distinct keys, so this coincides with Python's lookup).
* Output is observed as the list of chunks written to `sys.stdout` and to
  `sys.stderr`; `print(x)` writes the chunk `x ++ "\n"`, `print(x, end=e)`
  writes `x ++ e`, and `stream.write(s)` writes `s` exactly.
* Code that can raise returns `Except PyErr _`; a `KeyError` models a
  failed `an[key]` subscript and a `TypeError` models `%g` applied to a
  non-numeric value or a `str + obj` concatenation whose right operand is
  not a string (the tran branch's `" method=" + an["method"]`).  On an
  exception the partial output already written is not recorded; no claim
  below inspects output of a raising call.
* `list.sort` with a `cmp` comparator (Python 2 semantics, which is what
  the source's `keys.sort(lambda x, y: cmp(str(x), str(y)))` asks for) is
  a stable ascending sort; it is modelled by `List.insertionSort` on the
  relation `strLe` comparing the `str` images of the keys.
* The module-level `options` values (`options.ver`, `options.vea`,
  `options.ier`, `options.iea`) come from a sibling module that is not
  part of the sources; they enter `print_result_check` only as data, so
  they are parameters (`OptionsCfg`) and every theorem quantifies over
  them.
* numpy's global print options are a record `NpOptions`;
  `np.set_printoptions` with keyword arguments is a partial update
  (`NpOptionsUpdate`), and restoring from the full dict returned by
  `np.get_printoptions` sets every field.
-/

/-- A Python value as used by the printing module: `None`, a bool, an
integer, or a string.  Strings also stand in for richer objects (sympy
expressions, floats already rendered) whose only use here is `str()`. -/
inductive PyVal where
  | none
  | bool (b : Bool)
  | int (n : Int)
  | str (s : String)
deriving DecidableEq, Repr

/-- Python `str()` on a `PyVal`. -/
def pyStr : PyVal → String
  | PyVal.none => "None"
  | PyVal.bool true => "True"
  | PyVal.bool false => "False"
  | PyVal.int n => toString n
  | PyVal.str s => s

/-- The exceptions the embedded code can raise: `KeyError` from a dict
subscript with a missing key, `TypeError` from `%g` on a non-number. -/
inductive PyErr where
  | keyError (k : String)
  | typeError
deriving DecidableEq, Repr

/-- A Python dict, as an association list in insertion order. -/
abbrev Dict := List (PyVal × PyVal)

/-- First binding of key `k` in `d`, if any (Python dict lookup). -/
def dictFind (d : Dict) (k : PyVal) : Option PyVal :=
  (d.find? (fun kv => kv.1 == k)).map (fun kv => kv.2)

/-- Python `d[k]`: the value bound to `k`, or a `KeyError`. -/
def dictGetE (d : Dict) (k : PyVal) : Except PyErr PyVal :=
  match dictFind d k with
  | some v => Except.ok v
  | Option.none => Except.error (PyErr.keyError (pyStr k))

/-- What a call wrote: the chunks sent to stdout and to stderr, in order. -/
structure Output where
  out : List String
  err : List String
deriving DecidableEq, Repr

/-- Number of decimal digits of `m` (1 for 0). -/
def decDigits (m : Nat) : Nat := max (Nat.digits 10 m).length 1

/-- Python `"%g" % n` for an integer `n`: plain decimal up to six
significant digits, otherwise exponent notation with the mantissa rounded
to six significant digits (ties round half to even, as the C library
formatting underneath `%g` does) and trailing zeros stripped. -/
def fmtGInt (n : Int) : String :=
  if n = 0 then "0"
  else
    let sign := if n < 0 then "-" else ""
    let m := n.natAbs
    let ds := decDigits m
    if ds ≤ 6 then sign ++ toString m
    else
      let shift := ds - 6
      let p := 10 ^ shift
      let q := m / p
      let rem := m % p
      let half := p / 2
      let r0 := if half < rem then q + 1 else if rem < half then q else q + q % 2
      let re : Nat × Nat := if r0 = 10 ^ 6 then (10 ^ 5, ds) else (r0, ds - 1)
      let digits := (toString re.1).toList
      let tail := (digits.drop 1).reverse.dropWhile (fun c => c = '0') |>.reverse
      let mant :=
        if tail = [] then String.mk (digits.take 1)
        else String.mk (digits.take 1) ++ "." ++ String.mk tail
      let estr := if re.2 < 10 then "0" ++ toString re.2 else toString re.2
      sign ++ mant ++ "e+" ++ estr

/-- The `%g` conversion: numbers (Python bools are integers) format, other
values raise `TypeError`. -/
def pyFmtG : PyVal → Except PyErr String
  | PyVal.int n => Except.ok (fmtGInt n)
  | PyVal.bool b => Except.ok (fmtGInt (if b then 1 else 0))
  | _ => Except.error PyErr.typeError

/-- The right operand of a Python `str + obj` concatenation: a `str` is
accepted as is, any other value raises `TypeError`.  The tran branch of
`print_analysis` concatenates `" method=" + an["method"]` without a
`str()` wrapper, so a non-string method raises there. -/
def pyStrArg : PyVal → Except PyErr String
  | PyVal.str s => Except.ok s
  | _ => Except.error PyErr.typeError

/-- The per-key chunks of the `.op` branch of `print_analysis`: one
`" key=value"` chunk per entry whose key is not `type`, `outfile` or
`verbose`.  The source iterates the keys and subscripts the dict; for a
dict (distinct keys) that is iterating the entries. -/
def opFields : Dict → List String
  | [] => []
  | (k, v) :: rest =>
    if k = PyVal.str "type" ∨ k = PyVal.str "outfile" ∨ k = PyVal.str "verbose" then
      opFields rest
    else
      (" " ++ pyStr k ++ "=" ++ pyStr v) :: opFields rest

/-- `print_analysis(an)` (printing.py lines 69-101): prints the analysis in
netlist syntax on stdout, branching on `an["type"]`; each `an[...]`
subscript can raise `KeyError`, each `%g` conversion `TypeError` on a
non-number, and the tran branch's bare `" method=" + an["method"]`
concatenation `TypeError` on a non-string method. -/
def print_analysis (an : Dict) : Except PyErr Output := do
  let ty ← dictGetE an (PyVal.str "type")
  if ty = PyVal.str "op" then
    pure ⟨".op" :: opFields an ++ ["\n"], []⟩
  else if ty = PyVal.str "dc" then do
    let source ← dictGetE an (PyVal.str "source")
    let start ← dictGetE an (PyVal.str "start")
    let sstart ← pyFmtG start
    let stop ← dictGetE an (PyVal.str "stop")
    let sstop ← pyFmtG stop
    let step ← dictGetE an (PyVal.str "step")
    let sstep ← pyFmtG step
    let sweep ← dictGetE an (PyVal.str "sweep_type")
    pure ⟨[".dc " ++ pyStr source ++ " start=" ++ sstart ++ " stop=" ++ sstop ++
           " step=" ++ sstep ++ " type=" ++ pyStr sweep ++ "\n"], []⟩
  else if ty = PyVal.str "tran" then do
    let tstep ← dictGetE an (PyVal.str "tstep")
    let tstop ← dictGetE an (PyVal.str "tstop")
    let tstart ← dictGetE an (PyVal.str "tstart")
    let head := ".tran tstep=" ++ pyStr tstep ++ " tstop=" ++ pyStr tstop ++
                " tstart=" ++ pyStr tstart
    let method ← dictGetE an (PyVal.str "method")
    if method ≠ PyVal.none then do
      let ms ← pyStrArg method
      pure ⟨[head, " method=" ++ ms ++ "\n"], []⟩
    else
      pure ⟨[head, "\n"], []⟩
  else if ty = PyVal.str "shooting" then do
    let period ← dictGetE an (PyVal.str "period")
    let method ← dictGetE an (PyVal.str "method")
    let head := ".shooting period=" ++ pyStr period ++ " method=" ++ pyStr method
    let points ← dictGetE an (PyVal.str "points")
    let c1 := if points ≠ PyVal.none then [" points=" ++ pyStr points] else []
    let step ← dictGetE an (PyVal.str "step")
    let c2 := if step ≠ PyVal.none then [" step=" ++ pyStr step] else []
    let autonomous ← dictGetE an (PyVal.str "autonomous")
    pure ⟨head :: c1 ++ c2 ++ [" autonomous=" ++ " " ++ pyStr autonomous ++ "\n"], []⟩
  else
    pure ⟨[], []⟩

/-- `print_general_error(description, print_to_stdout)` (lines 104-121):
writes `"E: " + description` to stdout when the flag is set, to stderr
otherwise, and returns `None`. -/
def print_general_error (description : String) (print_to_stdout : Bool) :
    Output × PyVal :=
  let the_error_message := "E: " ++ description
  if print_to_stdout then
    (⟨[the_error_message ++ "\n"], []⟩, PyVal.none)
  else
    (⟨[], [the_error_message ++ "\n"]⟩, PyVal.none)

/-- `print_warning(description, print_to_stdout)` (lines 124-141):
writes `"W: " + description` to stdout when the flag is set, to stderr
otherwise, and returns `None`. -/
def print_warning (description : String) (print_to_stdout : Bool) :
    Output × PyVal :=
  let the_warning_message := "W: " ++ description
  if print_to_stdout then
    (⟨[the_warning_message ++ "\n"], []⟩, PyVal.none)
  else
    (⟨[], [the_warning_message ++ "\n"]⟩, PyVal.none)

/-- `print_parse_error(nline, line, print_to_stdout)` (lines 157-177):
reports `"Parse error on line <nline>:"` through `print_general_error` and
then writes the offending line to the same stream; returns `None`. -/
def print_parse_error (nline : Int) (line : String) (print_to_stdout : Bool) :
    Output × PyVal :=
  let o1 := (print_general_error ("Parse error on line " ++ toString nline ++ ":")
              print_to_stdout).1
  let o2 : Output :=
    if print_to_stdout then ⟨[line ++ "\n"], []⟩ else ⟨[], [line ++ "\n"]⟩
  (⟨o1.out ++ o2.out, o1.err ++ o2.err⟩, PyVal.none)

/-- numpy's global print options (`np.get_printoptions()`): a record of
every option. -/
structure NpOptions where
  precision : Int
  threshold : Int
  edgeitems : Int
  linewidth : Int
  suppress : Bool
  nanstr : String
  infstr : String
  sign : String
  floatmode : String
deriving DecidableEq, Repr

/-- Keyword arguments to `np.set_printoptions`: each option may or may not
be supplied. -/
structure NpOptionsUpdate where
  precision : Option Int
  threshold : Option Int
  edgeitems : Option Int
  linewidth : Option Int
  suppress : Option Bool
  nanstr : Option String
  infstr : Option String
  sign : Option String
  floatmode : Option String
deriving DecidableEq, Repr

/-- `np.get_printoptions()`: the current full option record. -/
def np_get_printoptions (s : NpOptions) : NpOptions := s

/-- `np.set_printoptions(**kwargs)` with some keywords given: each supplied
option replaces the current one, the rest keep their values. -/
def np_set_printoptions (u : NpOptionsUpdate) (s : NpOptions) : NpOptions :=
  ⟨u.precision.getD s.precision, u.threshold.getD s.threshold,
   u.edgeitems.getD s.edgeitems, u.linewidth.getD s.linewidth,
   u.suppress.getD s.suppress, u.nanstr.getD s.nanstr,
   u.infstr.getD s.infstr, u.sign.getD s.sign, u.floatmode.getD s.floatmode⟩

/-- `np.set_printoptions(**original)` where `original` is the full dict
from `np.get_printoptions()`: every option is supplied, so every field of
the current state is replaced. -/
def np_set_printoptions_all (o : NpOptions) (_s : NpOptions) : NpOptions :=
  ⟨o.precision, o.threshold, o.edgeitems, o.linewidth, o.suppress,
   o.nanstr, o.infstr, o.sign, o.floatmode⟩

/-- The `printoptions` context manager (lines 236-241): saves
`np.get_printoptions()`, applies the supplied arguments, runs the body
(which may itself change the options and computes a value), and restores
the saved options by passing the full saved dict to `np.set_printoptions`. -/
def printoptions {α : Type} (u : NpOptionsUpdate) (body : NpOptions → NpOptions × α)
    (s : NpOptions) : NpOptions × α :=
  let original := np_get_printoptions s
  let s1 := np_set_printoptions u s
  let ra := body s1
  (np_set_printoptions_all original ra.1, ra.2)

/-- The keyword arguments of the `printoptions` call inside
`print_info_line`: `precision=options.print_precision,
suppress=options.print_suppress`. -/
def infoLineUpdate (pp : Int) (ps : Bool) : NpOptionsUpdate :=
  ⟨some pp, Option.none, Option.none, Option.none, some ps,
   Option.none, Option.none, Option.none, Option.none⟩

/-- `print_info_line((msg, relevance), verbose, print_nl)` (lines 144-154):
when `verbose >= relevance`, prints `msg` on stdout (with a newline, or
with a trailing space when `print_nl` is false) inside a `printoptions`
context built from `options.print_precision` / `options.print_suppress`
(here the parameters `pp`, `ps`); otherwise it is suppressed and writes
nothing.  The numpy option state is threaded through. -/
def print_info_line (pp : Int) (ps : Bool) (mrt : String × Int)
    (verbose : Int) (print_nl : Bool) (s : NpOptions) : NpOptions × Output :=
  let msg := mrt.1
  let relevance := mrt.2
  if relevance ≤ verbose then
    printoptions (infoLineUpdate pp ps)
      (fun st =>
        if print_nl then (st, (⟨[msg ++ "\n"], []⟩ : Output))
        else (st, (⟨[msg ++ " "], []⟩ : Output)))
      s
  else
    (s, ⟨[], []⟩)

/-- The relation the source's comparator `lambda x, y: cmp(str(x), str(y))`
sorts by: ascending string representation. -/
def strLe (a b : PyVal) : Prop := pyStr a ≤ pyStr b

instance : DecidableRel strLe := fun a b =>
  inferInstanceAs (Decidable (pyStr a ≤ pyStr b))

instance : IsTotal PyVal strLe := ⟨fun a b => le_total (pyStr a) (pyStr b)⟩

instance : IsTrans PyVal strLe := ⟨fun _ _ _ hab hbc => le_trans hab hbc⟩

/-- The loop body of `print_symbolic_results`: for each key, in order, one
line `str(key) + "\t = " + str(x[key])`; the subscript can raise. -/
def symLines (x : Dict) : List PyVal → Except PyErr (List String)
  | [] => Except.ok []
  | k :: ks => do
    let v ← dictGetE x k
    let rest ← symLines x ks
    pure ((pyStr k ++ "\t = " ++ pyStr v ++ "\n") :: rest)

/-- `print_symbolic_results(x)` (lines 180-185): lists the keys, sorts them
ascending by their string representation (the Python 2 `cmp`-based stable
sort, modelled by insertion sort on `strLe`), and prints one line per key
on stdout. -/
def print_symbolic_results (x : Dict) : Except PyErr Output := do
  let keys := x.map Prod.fst
  let skeys := List.insertionSort strLe keys
  let lines ← symLines x skeys
  pure ⟨lines, []⟩

/-- The values this module reads from the sibling `options` module (not
part of the provided sources); they enter `print_result_check` only
through `str()`, so they are parameters of the model. -/
structure OptionsCfg where
  ver : PyVal
  vea : PyVal
  ier : PyVal
  iea : PyVal
deriving DecidableEq, Repr

/-- `print_result_check(badvars, verbose)` (lines 209-227): with a
non-empty `badvars` prints the gmin-dependence warning and every entry;
with an empty list prints the margin message only when `verbose` is
truthy; returns `None`. -/
def print_result_check (opts : OptionsCfg) (badvars : List String)
    (verbose : Int) : Output × PyVal :=
  if badvars.length ≠ 0 then
    (⟨"Warning: solution is heavvily dependent on gmin.\n" ::
      "Affected variables:\n" :: badvars.map (fun bv => bv ++ "\n"), []⟩,
     PyVal.none)
  else
    if verbose ≠ 0 then
      (⟨["Difference check is within margins.\n",
         "(Voltage: er=" ++ pyStr opts.ver ++ ", ea=" ++ pyStr opts.vea ++
         ", Current: er=" ++ pyStr opts.ier ++ ", ea=" ++ pyStr opts.iea ++ ")\n"], []⟩,
       PyVal.none)
    else
      (⟨[], []⟩, PyVal.none)

/-- Python truthiness of `os.getenv` results: `None` and the empty string
are falsy, any other string is truthy. -/
def pyTruthy : Option String → Bool
  | Option.none => false
  | some s => !(s == "")

/-- The module-level locale check (lines 243-247): `locale =
os.getenv('LANG')`; when it is falsy, two warnings go through
`print_warning` (to stderr); otherwise nothing is printed. -/
def locale_check (lang : Option String) : Output :=
  let locale := lang
  if pyTruthy locale then
    ⟨[], []⟩
  else
    let w1 := (print_warning ("Locale appears not set! please export " ++
                "LANG=\"en_US.UTF-8\" or equivalent, ") false).1
    let w2 := (print_warning "or ahkab\x27s unicode support is broken." false).1
    ⟨w1.out ++ w2.out, w1.err ++ w2.err⟩

/-- The line `print_symbolic_results` emits for key `k` of mapping `x`
(the default in `getD` is never reached for a key of `x`). -/
def lineFor (x : Dict) (k : PyVal) : String :=
  pyStr k ++ "\t = " ++ pyStr ((dictFind x k).getD PyVal.none) ++ "\n"

lemma dictFind_mem (x : Dict) (k : PyVal) (h : k ∈ x.map Prod.fst) :
    ∃ v, dictFind x k = some v := by
  rcases List.mem_map.mp h with ⟨kv, hkv, hk⟩
  have hfind : (x.find? (fun kv => kv.1 == k)).isSome = true := by
    rw [List.find?_isSome]
    exact ⟨kv, hkv, by simp [hk]⟩
  rcases Option.isSome_iff_exists.mp hfind with ⟨p, hp⟩
  exact ⟨p.2, by simp [dictFind, hp]⟩

lemma symLines_eq (x : Dict) : ∀ ks : List PyVal,
    (∀ k ∈ ks, ∃ v, dictFind x k = some v) →
    symLines x ks = Except.ok (ks.map (lineFor x))
  | [], _ => rfl
  | k :: ks, h => by
    rcases h k (by simp) with ⟨v, hv⟩
    have ih := symLines_eq x ks (fun a ha => h a (by simp [ha]))
    have hg : dictGetE x k = Except.ok v := by simp [dictGetE, hv]
    show (do
      let v ← dictGetE x k
      let rest ← symLines x ks
      pure ((pyStr k ++ "\t = " ++ pyStr v ++ "\n") :: rest) :
        Except PyErr (List String)) = _
    rw [hg, ih]
    simp only [lineFor, hv, Option.getD_some, List.map]
    rfl

lemma print_symbolic_results_eq (x : Dict) :
    print_symbolic_results x =
      Except.ok ⟨(List.insertionSort strLe (x.map Prod.fst)).map (lineFor x), []⟩ := by
  have h : ∀ k ∈ List.insertionSort strLe (x.map Prod.fst),
      ∃ v, dictFind x k = some v := by
    intro k hk
    exact dictFind_mem x k (by simpa using hk)
  simp [print_symbolic_results, symLines_eq x _ h, Except.bind]

/-- C1, counterexample: the claim says every public function returns
normally on every input; `print_analysis` on the analysis descriptor
`{"type": "dc"}` raises a `KeyError` for the missing key `source`. -/
theorem print_analysis_keyError_on_missing_source :
    print_analysis [(PyVal.str "type", PyVal.str "dc")] =
      Except.error (PyErr.keyError "source") := by rfl

/-- C1 (amended): no function of the module other than `print_analysis`
raises: in particular `print_symbolic_results` returns normally on every
mapping (and the message helpers are total functions of their inputs);
`print_analysis` is the exception, raising e.g. `KeyError` on the
descriptor `{"type": "dc"}`. -/
theorem print_symbolic_results_total (x : Dict) :
    ∃ o, print_symbolic_results x = Except.ok o :=
  ⟨_, print_symbolic_results_eq x⟩

/-- C2: `print_symbolic_results` succeeds on every mapping, emits exactly
one stdout line per key and nothing on stderr, and the lines follow a
permutation of the keys that is sorted ascending by the string
representation of the keys (`strLe`). -/
theorem print_symbolic_results_sorted_one_line_per_key (x : Dict) :
    ∃ ks lines,
      print_symbolic_results x = Except.ok ⟨lines, []⟩ ∧
      List.Perm ks (x.map Prod.fst) ∧
      lines.length = (x.map Prod.fst).length ∧
      List.Pairwise strLe ks ∧
      lines = ks.map (lineFor x) := by
  refine ⟨List.insertionSort strLe (x.map Prod.fst), _,
      print_symbolic_results_eq x, List.perm_insertionSort strLe _, ?_, ?_, rfl⟩
  · rw [List.length_map, (List.perm_insertionSort strLe _).length_eq]
  · exact List.sorted_insertionSort strLe _

/-- C3: for every description and either value of the flag, the single
message `print_general_error` emits is exactly `"E: "` followed by the
description, and the one `print_warning` emits is exactly `"W: "` followed
by the description (each as one line, wherever it is routed). -/
theorem error_and_warning_messages_exact (d : String) (b : Bool) :
    (print_general_error d b).1.out ++ (print_general_error d b).1.err =
      ["E: " ++ d ++ "\n"] ∧
    (print_warning d b).1.out ++ (print_warning d b).1.err =
      ["W: " ++ d ++ "\n"] := by
  cases b <;> exact ⟨rfl, rfl⟩

/-- C4: `print_general_error`, `print_warning` and `print_parse_error`
write their whole message to stderr when `print_to_stdout` is false and to
stdout when it is true, and nothing at all to the other stream. -/
theorem message_stream_routing (d : String) (n : Int) (line : String) :
    (print_general_error d false).1 = ⟨[], ["E: " ++ d ++ "\n"]⟩ ∧
    (print_general_error d true).1 = ⟨["E: " ++ d ++ "\n"], []⟩ ∧
    (print_warning d false).1 = ⟨[], ["W: " ++ d ++ "\n"]⟩ ∧
    (print_warning d true).1 = ⟨["W: " ++ d ++ "\n"], []⟩ ∧
    (print_parse_error n line false).1 =
      ⟨[], ["E: " ++ ("Parse error on line " ++ toString n ++ ":") ++ "\n",
            line ++ "\n"]⟩ ∧
    (print_parse_error n line true).1 =
      ⟨["E: " ++ ("Parse error on line " ++ toString n ++ ":") ++ "\n",
        line ++ "\n"], []⟩ :=
  ⟨rfl, rfl, rfl, rfl, rfl, rfl⟩

/-- C5: `print_info_line` leaves the numpy print-option state unchanged
and prints the message (with a newline, or a trailing space when
`print_nl` is false) exactly when `verbose >= relevance`; when `verbose`
is below `relevance` it writes nothing on either stream. -/
theorem print_info_line_suppression (pp : Int) (ps : Bool) (msg : String)
    (relevance verbose : Int) (pnl : Bool) (s : NpOptions) :
    print_info_line pp ps (msg, relevance) verbose pnl s =
      (s, if relevance ≤ verbose then
            (if pnl then ⟨[msg ++ "\n"], []⟩ else ⟨[msg ++ " "], []⟩)
          else ⟨[], []⟩) ∧
    ((print_info_line pp ps (msg, relevance) verbose pnl s).2.out ≠ [] ↔
      relevance ≤ verbose) := by
  have hmain : print_info_line pp ps (msg, relevance) verbose pnl s =
      (s, if relevance ≤ verbose then
            (if pnl then ⟨[msg ++ "\n"], []⟩ else ⟨[msg ++ " "], []⟩)
          else ⟨[], []⟩) := by
    by_cases h : relevance ≤ verbose <;>
      cases pnl <;>
        simp [print_info_line, printoptions, np_get_printoptions,
              np_set_printoptions_all, h]
  refine ⟨hmain, ?_⟩
  rw [hmain]
  by_cases h : relevance ≤ verbose <;> cases pnl <;> simp [h]

/-- C6: `print_general_error`, `print_warning` and `print_parse_error`
all return Python's `None`, for every input. -/
theorem message_helpers_return_none (d : String) (n : Int) (line : String)
    (b : Bool) :
    (print_general_error d b).2 = PyVal.none ∧
    (print_warning d b).2 = PyVal.none ∧
    (print_parse_error n line b).2 = PyVal.none := by
  cases b <;> exact ⟨rfl, rfl, rfl⟩

/-- C7: the `printoptions` context manager runs its body on the state
updated with the supplied arguments, and after the block the global numpy
print options are exactly what they were before it. -/
theorem printoptions_restores_and_scopes {α : Type} (u : NpOptionsUpdate)
    (body : NpOptions → NpOptions × α) (s : NpOptions) :
    (printoptions u body s).1 = s ∧
    (printoptions u body s).2 = (body (np_set_printoptions u s)).2 :=
  ⟨rfl, rfl⟩

/-- C8: at import time, with `LANG` unset the module emits its two locale
warnings through `print_warning` on stderr and nothing on stdout; with
`LANG` set to any non-empty string it emits nothing at all. -/
theorem locale_check_warns_iff_lang_unset (s : String) (h : s ≠ "") :
    locale_check Option.none =
      ⟨[], [("W: Locale appears not set! please export " ++
             "LANG=\"en_US.UTF-8\" or equivalent, ") ++ "\n",
            "W: or ahkab\x27s unicode support is broken." ++ "\n"]⟩ ∧
    locale_check (some s) = ⟨[], []⟩ := by
  refine ⟨rfl, ?_⟩
  simp [locale_check, pyTruthy, h]

/-- C8 witness: concrete instance with `LANG="en_US.UTF-8"`. -/
theorem locale_check_warns_iff_lang_unset_witness :
    locale_check Option.none =
      ⟨[], [("W: Locale appears not set! please export " ++
             "LANG=\"en_US.UTF-8\" or equivalent, ") ++ "\n",
            "W: or ahkab\x27s unicode support is broken." ++ "\n"]⟩ ∧
    locale_check (some "en_US.UTF-8") = ⟨[], []⟩ :=
  locale_check_warns_iff_lang_unset "en_US.UTF-8" (by decide)

/-- C9: `print_parse_error` emits exactly two chunks, each one line:
first `"E: Parse error on line <nline>:"`, then the offending line; both
on stderr by default and both on stdout when `print_to_stdout` is true,
with the other stream untouched. -/
theorem print_parse_error_two_lines (n : Int) (line : String) :
    (print_parse_error n line false).1 =
      ⟨[], ["E: " ++ ("Parse error on line " ++ toString n ++ ":") ++ "\n",
            line ++ "\n"]⟩ ∧
    (print_parse_error n line true).1 =
      ⟨["E: " ++ ("Parse error on line " ++ toString n ++ ":") ++ "\n",
        line ++ "\n"], []⟩ ∧
    ((print_parse_error n line false).1.err).length = 2 ∧
    ((print_parse_error n line true).1.out).length = 2 :=
  ⟨rfl, rfl, rfl, rfl⟩

/-- C10: `print_result_check` always returns `None`; with a non-empty
`badvars` it prints the gmin-dependence warning, the header and every
entry, whatever `verbose` is; with an empty list and `verbose = 0` it
prints nothing on either stream. -/
theorem print_result_check_spec (opts : OptionsCfg) (b : String)
    (bv badvars : List String) (verbose : Int) :
    (print_result_check opts badvars verbose).2 = PyVal.none ∧
    (print_result_check opts (b :: bv) verbose).1 =
      ⟨"Warning: solution is heavvily dependent on gmin.\n" ::
        "Affected variables:\n" :: (b :: bv).map (fun v => v ++ "\n"), []⟩ ∧
    (print_result_check opts [] 0).1 = ⟨[], []⟩ := by
  refine ⟨?_, by simp [print_result_check], rfl⟩
  cases badvars <;> by_cases hv : verbose = 0 <;>
    simp [print_result_check, hv]
